import Mathlib

/-!
Verification of the CosmoFlow backend (`cosmoflow/cosmology.py`,
`cosmoflow/tracers.py`, `cosmoflow/survey.py`) against its specification.

The Python source is shallowly embedded: floats become real numbers,
`scipy.special.erf` becomes the Gauss error function defined by its
integral, the batched rejection-sampling `while` loop becomes a
fuel-indexed recursion over explicit streams of random draws, and a
Python-level outcome type records raised exceptions and divergence.
-/

/-- Gauss error function, the model of `scipy.special.erf`:
`erf x = 2/sqrt(pi) * ∫ t in 0..x, exp (-t^2)`. -/
noncomputable def erf (x : ℝ) : ℝ :=
  2 / Real.sqrt Real.pi * ∫ t in (0:ℝ)..x, Real.exp (-(t ^ 2))

/-- Outcome of running a piece of Python code: a returned value, a raised
exception (identified by its class name), or failure to terminate within
the fuel supplied to the model. -/
inductive PyResult (α : Type) where
  | ok (val : α)
  | raised (err : String)
  | diverged

/-- Sequencing of Python statements: a raised exception or divergence
propagates past the rest of the computation. -/
def PyResult.bind {α β : Type} : PyResult α → (α → PyResult β) → PyResult β
  | .ok a, f => f a
  | .raised e, _ => .raised e
  | .diverged, _ => .diverged

/-- Python slice `l[:n]` for an integer `n`: a negative `n` counts from the
end of the list, clamping at the empty list. -/
def pySliceTo {α : Type} (l : List α) (n : ℤ) : List α :=
  if 0 ≤ n then l.take n.toNat else l.take ((l.length : ℤ) + n).toNat

/- ------------------------------------------------------------------
Tracer subclasses (`tracers.py`).  Each variant contributes its density
`n_of_z` and, when its `__init__` defines one, a `max_prob_estimate`;
a missing attribute is modelled as `none`.
------------------------------------------------------------------- -/

/-- `LRG.n_of_z` exactly as written in the source:
`0.5 * (erf((z - z_min) / np.sqrt(2) * sigma) - erf((z - z_max) / np.sqrt(2) * sigma))`
with `z_min = 0.4`, `z_max = 1.0`, `sigma = 0.1`.  Python operator
precedence makes this divide by `sqrt 2` and then multiply by `sigma`. -/
noncomputable def LRG_n_of_z (z : ℝ) : ℝ :=
  0.5 * (erf ((z - 0.4) / Real.sqrt 2 * 0.1) - erf ((z - 1.0) / Real.sqrt 2 * 0.1))

/-- `LRG.__init__` sets `z_min`, `z_max`, `sigma`, `norm` but never
`max_prob_estimate`: the attribute is absent. -/
def LRG_max_prob_estimate : Option ℝ := none

/-- `ELG.n_of_z`: `z ** alpha * np.exp(-(z / z0) ** beta)` with
`alpha = 2.0`, `beta = 1.5`, `z0 = 0.8` (real powers model the float
exponents). -/
noncomputable def ELG_n_of_z (z : ℝ) : ℝ :=
  z ^ (2.0 : ℝ) * Real.exp (-((z / 0.8) ^ (1.5 : ℝ)))

/-- `ELG.__init__` sets `self.max_prob_estimate = 1.0`. -/
def ELG_max_prob_estimate : Option ℝ := some 1.0

/-- `QSO.n_of_z`: `z ** 2 * np.exp(-z / z_star)` with `z_star = 2.0`. -/
noncomputable def QSO_n_of_z (z : ℝ) : ℝ :=
  z ^ 2 * Real.exp (-(z / 2.0))

/-- `QSO.__init__` sets only `z_star`: `max_prob_estimate` is absent. -/
def QSO_max_prob_estimate : Option ℝ := none

/-- `BGS.n_of_z`: `z ** alpha * np.exp(-(z / z0) ** beta)` with
`alpha = 2.0`, `beta = 1.5`, `z0 = 0.2`. -/
noncomputable def BGS_n_of_z (z : ℝ) : ℝ :=
  z ^ (2.0 : ℝ) * Real.exp (-((z / 0.2) ^ (1.5 : ℝ)))

/-- `BGS.__init__` sets `self.max_prob_estimate = 1.0`. -/
def BGS_max_prob_estimate : Option ℝ := some 1.0

/- ------------------------------------------------------------------
`Tracer.sample_redshifts` (`tracers.py`, lines 25-49).  The calls to
`np.random.uniform` are modelled by two ambient streams: `zs i` is the
i-th redshift proposal drawn from `uniform(0, 5)` and `ps i` the i-th
height proposal drawn from `uniform(0, max_prob_estimate)`; `k` counts
how many draws have been consumed.
------------------------------------------------------------------- -/

/-- One batch of the sampling loop body: draw `batch` proposals starting
at stream position `k` and keep those with `prob_proposal < n_of_z(z_proposal)`. -/
noncomputable def sampleBatch (nz : ℝ → ℝ) (zs ps : ℕ → ℝ) (k batch : ℕ) : List ℝ :=
  (List.range batch).filterMap fun j =>
    if ps (k + j) < nz (zs (k + j)) then some (zs (k + j)) else none

/-- The `while len(samples) < n` loop of `sample_redshifts`, indexed by
fuel; on exit it returns `samples[:n]`.  The batch size is
`(n - len(samples)) * 3` as in the source. -/
noncomputable def sampleRun (nz : ℝ → ℝ) (zs ps : ℕ → ℝ) (n : ℤ) :
    ℕ → List ℝ → ℕ → Option (List ℝ)
  | 0, _, _ => none
  | fuel + 1, samples, k =>
    if (samples.length : ℤ) < n then
      sampleRun nz zs ps n fuel
        (samples ++ sampleBatch nz zs ps k ((n - samples.length) * 3).toNat)
        (k + ((n - samples.length) * 3).toNat)
    else
      some (pySliceTo samples n)

/-- `Tracer.sample_redshifts(self, n)`: reading `self.max_prob_estimate`
(line 35) raises `AttributeError` when the subclass never defined the
attribute; otherwise the rejection-sampling loop runs. -/
noncomputable def Tracer.sample_redshifts (mpe : Option ℝ) (nz : ℝ → ℝ)
    (zs ps : ℕ → ℝ) (fuel : ℕ) (n : ℤ) : PyResult (List ℝ) :=
  match mpe with
  | none => .raised "AttributeError"
  | some _ =>
    match sampleRun nz zs ps n fuel [] 0 with
    | none => .diverged
    | some l => .ok l

/- ------------------------------------------------------------------
`generate_redshifts` (`survey.py`).  The three calls to
`np.random.randint(0, n + 1)` are modelled by the parameters `edge_1`,
`edge_2`, `edge_3`; each tracer gets its own pair of proposal streams
and the shared fuel bound.
------------------------------------------------------------------- -/

/-- `generate_redshifts(n)` from `survey.py`: cut `[0, n]` at the three
(unsorted) edges, and for each tracer whose sub-count is positive sample
that many redshifts, concatenating in the order LRG, ELG, QSO, BGS. -/
noncomputable def generate_redshifts (edge_1 edge_2 edge_3 : ℤ)
    (lrgZ lrgP elgZ elgP qsoZ qsoP bgsZ bgsP : ℕ → ℝ)
    (fuel : ℕ) (n : ℤ) : PyResult (List ℝ) :=
  let n_lrg := edge_1
  let n_elg := edge_2 - edge_1
  let n_qso := edge_3 - edge_2
  let n_bgs := n - edge_3
  (if n_lrg > 0 then
      Tracer.sample_redshifts LRG_max_prob_estimate LRG_n_of_z lrgZ lrgP fuel n_lrg
    else .ok []).bind fun r1 =>
  (if n_elg > 0 then
      Tracer.sample_redshifts ELG_max_prob_estimate ELG_n_of_z elgZ elgP fuel n_elg
    else .ok []).bind fun r2 =>
  (if n_qso > 0 then
      Tracer.sample_redshifts QSO_max_prob_estimate QSO_n_of_z qsoZ qsoP fuel n_qso
    else .ok []).bind fun r3 =>
  (if n_bgs > 0 then
      Tracer.sample_redshifts BGS_max_prob_estimate BGS_n_of_z bgsZ bgsP fuel n_bgs
    else .ok []).bind fun r4 =>
  .ok (r1 ++ r2 ++ r3 ++ r4)

/- ------------------------------------------------------------------
`Cosmology` (`cosmology.py`).
------------------------------------------------------------------- -/

/-- Instance state of a `Cosmology` object whose lookup table has been
built.  The cubic interpolant returned by `scipy.interpolate.interp1d`
is an opaque external collaborator, kept abstract as the function
stored in `comoving_distance_lookup`. -/
structure CosmologyState where
  h : ℝ
  H0 : ℝ
  Omega_m : ℝ
  Omega_lambda : ℝ
  c : ℝ
  comoving_distance_lookup : ℝ → ℝ

/-- `Cosmology.E(z) = np.sqrt(Omega_m * (1 + z) ** 3 + Omega_lambda)`. -/
noncomputable def Cosmology.E (s : CosmologyState) (z : ℝ) : ℝ :=
  Real.sqrt (s.Omega_m * (1 + z) ^ 3 + s.Omega_lambda)

/-- `Cosmology.comoving_distance(z)`: evaluate the interpolant. -/
def Cosmology.comoving_distance (s : CosmologyState) (z : ℝ) : ℝ :=
  s.comoving_distance_lookup z

/-- `Cosmology.luminosity_distance(z) = (1 + z) * self.comoving_distance(z)`. -/
def Cosmology.luminosity_distance (s : CosmologyState) (z : ℝ) : ℝ :=
  (1 + z) * Cosmology.comoving_distance s z

/-- The method names defined in `class Cosmology`. -/
def Cosmology.methodNames : List String :=
  ["__init__", "E", "_builds_lookups", "comoving_distance",
   "luminosity_distance", "distance_modulus"]

/-- The attribute that `Cosmology.__init__` looks up on line 15:
`self._build_lookups()`. -/
def Cosmology.initLookupCall : String := "_build_lookups"

/-- Outcome of `Cosmology()`: Python resolves the attribute named in
`__init__` against the class's defined methods; an unknown name raises
`AttributeError` before any table is built. -/
def Cosmology.constructOutcome : Except String Unit :=
  if Cosmology.initLookupCall ∈ Cosmology.methodNames then Except.ok ()
  else Except.error "AttributeError"

/-- A numpy double as seen by this excerpt: an ordinary real, `nan`, or
`-inf`. -/
inductive NpFloat where
  | val (x : ℝ)
  | nan
  | neginf

/-- `np.log10`: a positive argument gives the base-10 logarithm; zero
gives `-inf` and a negative argument gives `nan`, each with only a
`RuntimeWarning` — no exception is raised in any case. -/
noncomputable def npLog10 (x : ℝ) : NpFloat :=
  if 0 < x then .val (Real.log x / Real.log 10)
  else if x = 0 then .neginf
  else .nan

/-- `Cosmology.distance_modulus(z) = 5 * np.log10(d_L * 1e6) - 5`; the
affine arithmetic propagates `nan` and `-inf` unchanged. -/
noncomputable def Cosmology.distance_modulus (s : CosmologyState) (z : ℝ) : NpFloat :=
  match npLog10 (Cosmology.luminosity_distance s z * 1e6) with
  | .val x => .val (5 * x - 5)
  | .nan => .nan
  | .neginf => .neginf

/-- Modelled from the spec: `distance_modulus` must fail with an explicit
domain error whenever the luminosity distance is `≤ 0`, and otherwise
return `5 * log10(d_L * 1e6) - 5`. -/
noncomputable def distance_modulus_spec (s : CosmologyState) (z : ℝ) : Except String ℝ :=
  if Cosmology.luminosity_distance s z ≤ 0 then Except.error "DomainError"
  else Except.ok (5 * (Real.log (Cosmology.luminosity_distance s z * 1e6) / Real.log 10) - 5)

/-- Modelled from the spec: LRG density as the spec's table states it,
a half-difference of error functions of width `sigma` — the argument is
divided by `sqrt 2 * sigma`. -/
noncomputable def LRG_n_of_z_spec (z : ℝ) : ℝ :=
  0.5 * (erf ((z - 0.4) / (Real.sqrt 2 * 0.1)) - erf ((z - 1.0) / (Real.sqrt 2 * 0.1)))

/- ------------------------------------------------------------------
Helper lemmas about the error function.
------------------------------------------------------------------- -/

theorem erf_integrand_integrable (a b : ℝ) :
    IntervalIntegrable (fun t : ℝ => Real.exp (-(t ^ 2))) MeasureTheory.volume a b :=
  (Real.continuous_exp.comp (continuous_neg.comp (continuous_pow 2))).intervalIntegrable a b

theorem erf_lt_erf {a b : ℝ} (hab : a < b) : erf a < erf b := by
  have hc : (0:ℝ) < 2 / Real.sqrt Real.pi :=
    div_pos (by norm_num) (Real.sqrt_pos.mpr Real.pi_pos)
  have hsplit :
      (∫ t in (0:ℝ)..a, Real.exp (-(t ^ 2))) + ∫ t in a..b, Real.exp (-(t ^ 2)) =
        ∫ t in (0:ℝ)..b, Real.exp (-(t ^ 2)) :=
    intervalIntegral.integral_add_adjacent_intervals
      (erf_integrand_integrable 0 a) (erf_integrand_integrable a b)
  have hpos : (0:ℝ) < ∫ t in a..b, Real.exp (-(t ^ 2)) :=
    intervalIntegral.intervalIntegral_pos_of_pos_on
      (erf_integrand_integrable a b) (fun x _ => Real.exp_pos _) hab
  have : (∫ t in (0:ℝ)..a, Real.exp (-(t ^ 2))) < ∫ t in (0:ℝ)..b, Real.exp (-(t ^ 2)) := by
    linarith
  unfold erf
  exact (mul_lt_mul_left hc).mpr this

theorem erf_le_erf {a b : ℝ} (hab : a ≤ b) : erf a ≤ erf b := by
  rcases eq_or_lt_of_le hab with rfl | h
  · exact le_rfl
  · exact (erf_lt_erf h).le

/- ------------------------------------------------------------------
Claim theorems for the Cosmology component.
------------------------------------------------------------------- -/

/-- Claim C1: constructing a `Cosmology` is claimed to succeed and eagerly
build the lookup table, but `__init__` calls `self._build_lookups()` while
the class only defines `_builds_lookups`, so `Cosmology()` raises
`AttributeError` and no table is ever built. -/
theorem Cosmology_construct_raises :
    Cosmology.constructOutcome = Except.error "AttributeError" := by
  have h : ¬ (Cosmology.initLookupCall ∈ Cosmology.methodNames) := by decide
  simp [Cosmology.constructOutcome, h]

/-- Claim C9: `luminosity_distance(z)` equals `(1 + z) * comoving_distance(z)`
exactly, for every instance state and every redshift: the method is that
product of the interpolant query by construction. -/
theorem luminosity_distance_identity (s : CosmologyState) (z : ℝ) :
    Cosmology.luminosity_distance s z = (1 + z) * Cosmology.comoving_distance s z := rfl

/-- Claim C4 (counterexample): at `z = 0.7` the LRG density computed by the
code is strictly below the spec's formula — the source's
`(z - z_min) / np.sqrt(2) * self.sigma` multiplies by `sigma` where the
claim's `(z - z_min) / (sqrt 2 * sigma)` divides by it. -/
theorem LRG_n_of_z_deviates : LRG_n_of_z 0.7 < LRG_n_of_z_spec 0.7 := by
  have hs : (0:ℝ) < Real.sqrt 2 := Real.sqrt_pos.mpr (by norm_num)
  have hs' : Real.sqrt 2 ≠ 0 := ne_of_gt hs
  have e1 : ((0.7:ℝ) - 0.4) / Real.sqrt 2 * 0.1 = 0.03 / Real.sqrt 2 := by ring
  have e2 : ((0.7:ℝ) - 0.4) / (Real.sqrt 2 * 0.1) = 3 / Real.sqrt 2 := by
    field_simp
    ring
  have e3 : ((0.7:ℝ) - 1.0) / Real.sqrt 2 * 0.1 = -0.03 / Real.sqrt 2 := by ring
  have e4 : ((0.7:ℝ) - 1.0) / (Real.sqrt 2 * 0.1) = -3 / Real.sqrt 2 := by
    field_simp
    ring
  have h1 : erf (0.03 / Real.sqrt 2) < erf (3 / Real.sqrt 2) :=
    erf_lt_erf (by
      rw [div_lt_div_iff₀ hs hs]
      nlinarith)
  have h2 : erf (-3 / Real.sqrt 2) < erf (-0.03 / Real.sqrt 2) :=
    erf_lt_erf (by
      rw [div_lt_div_iff₀ hs hs]
      nlinarith)
  unfold LRG_n_of_z LRG_n_of_z_spec
  rw [e1, e2, e3, e4]
  linarith

/- ------------------------------------------------------------------
Helper lemmas for the modified-Schechter densities.
------------------------------------------------------------------- -/

theorem exp_ge_sq {z : ℝ} (hz : 0 ≤ z) : z ^ 2 ≤ Real.exp z := by
  have ha := Real.add_one_le_exp (z / 4)
  have hx : Real.exp z = Real.exp (z / 4) ^ 4 := by
    rw [← Real.exp_nat_mul]
    congr 1
    push_cast
    ring
  have h14 : (0:ℝ) ≤ 1 + z / 4 := by linarith
  have hb : z ≤ (1 + z / 4) ^ 2 := by nlinarith [sq_nonneg (1 - z / 4)]
  have hc : (1 + z / 4) ^ 2 ≤ Real.exp (z / 4) ^ 2 := by
    apply pow_le_pow_left h14 (by linarith)
  have he : z ^ 2 ≤ (Real.exp (z / 4) ^ 2) ^ 2 := pow_le_pow_left hz (le_trans hb hc) 2
  rw [hx]
  calc z ^ 2 ≤ (Real.exp (z / 4) ^ 2) ^ 2 := he
  _ = Real.exp (z / 4) ^ 4 := by ring

theorem schechter_le_one {z0 : ℝ} (hz0 : 0 < z0) (hz01 : z0 ≤ 1) {z : ℝ} (hz : 0 ≤ z) :
    z ^ (2.0 : ℝ) * Real.exp (-((z / z0) ^ (1.5 : ℝ))) ≤ 1 := by
  have hexp_le : Real.exp (-((z / z0) ^ (1.5:ℝ))) ≤ 1 := by
    rw [Real.exp_le_one_iff]
    have h := Real.rpow_nonneg (div_nonneg hz hz0.le) (1.5:ℝ)
    linarith
  rcases le_or_lt z 1 with h1 | h1
  · have hp : z ^ (2.0:ℝ) ≤ 1 := Real.rpow_le_one hz h1 (by norm_num)
    have he0 : 0 ≤ Real.exp (-((z / z0) ^ (1.5:ℝ))) := (Real.exp_pos _).le
    have := mul_le_mul hp hexp_le he0 zero_le_one
    linarith
  · have h2 : z ≤ z / z0 := by
      rw [le_div_iff₀ hz0]
      nlinarith
    have h3 : (1:ℝ) ≤ z / z0 := le_trans h1.le h2
    have h4 : z ≤ (z / z0) ^ (1.5:ℝ) := by
      calc z ≤ z / z0 := h2
      _ = (z / z0) ^ (1:ℝ) := (Real.rpow_one _).symm
      _ ≤ (z / z0) ^ (1.5:ℝ) := Real.rpow_le_rpow_of_exponent_le h3 (by norm_num)
    have h5 : z ^ (2.0:ℝ) ≤ Real.exp ((z / z0) ^ (1.5:ℝ)) := by
      have h20 : z ^ (2.0:ℝ) = z ^ 2 := by
        rw [show (2.0:ℝ) = ((2:ℕ):ℝ) by norm_num, Real.rpow_natCast]
      rw [h20]
      exact le_trans (exp_ge_sq (by linarith)) (Real.exp_le_exp.mpr h4)
    rw [Real.exp_neg]
    have hu := Real.exp_pos ((z / z0) ^ (1.5:ℝ))
    calc z ^ (2.0:ℝ) * (Real.exp ((z / z0) ^ (1.5:ℝ)))⁻¹
        ≤ Real.exp ((z / z0) ^ (1.5:ℝ)) * (Real.exp ((z / z0) ^ (1.5:ℝ)))⁻¹ :=
          mul_le_mul_of_nonneg_right h5 (inv_nonneg.mpr hu.le)
      _ = 1 := mul_inv_cancel₀ hu.ne'

/-- Claim C7: the declared `max_prob_estimate` of ELG and BGS is `1.0`,
and on the whole sampling domain `[0, 5]` each density stays below it,
so the rejection bound is valid for these two variants. -/
theorem max_prob_estimate_valid (z : ℝ) (h0 : 0 ≤ z) (h5 : z ≤ 5) :
    ELG_max_prob_estimate = some 1 ∧ BGS_max_prob_estimate = some 1 ∧
    ELG_n_of_z z ≤ 1 ∧ BGS_n_of_z z ≤ 1 := by
  refine ⟨by norm_num [ELG_max_prob_estimate], by norm_num [BGS_max_prob_estimate], ?_, ?_⟩
  · unfold ELG_n_of_z
    exact schechter_le_one (by norm_num) (by norm_num) h0
  · unfold BGS_n_of_z
    exact schechter_le_one (by norm_num) (by norm_num) h0

/-- Claim C7 witness at `z = 1`. -/
theorem max_prob_estimate_valid_w :
    ELG_max_prob_estimate = some 1 ∧ BGS_max_prob_estimate = some 1 ∧
    ELG_n_of_z 1 ≤ 1 ∧ BGS_n_of_z 1 ≤ 1 :=
  max_prob_estimate_valid 1 (by norm_num) (by norm_num)

/-- Claim C8: on the sampling domain `[0, 5]` every one of the four tracer
densities is non-negative. -/
theorem n_of_z_nonneg (z : ℝ) (h0 : 0 ≤ z) (h5 : z ≤ 5) :
    0 ≤ LRG_n_of_z z ∧ 0 ≤ ELG_n_of_z z ∧ 0 ≤ QSO_n_of_z z ∧ 0 ≤ BGS_n_of_z z := by
  refine ⟨?_, ?_, ?_, ?_⟩
  · unfold LRG_n_of_z
    have hs : (0:ℝ) < Real.sqrt 2 := Real.sqrt_pos.mpr (by norm_num)
    have h : erf ((z - 1.0) / Real.sqrt 2 * 0.1) ≤ erf ((z - 0.4) / Real.sqrt 2 * 0.1) := by
      apply erf_le_erf
      have hd : (z - 1.0) / Real.sqrt 2 ≤ (z - 0.4) / Real.sqrt 2 :=
        (div_le_div_right hs).mpr (by linarith)
      nlinarith
    linarith
  · unfold ELG_n_of_z
    exact mul_nonneg (Real.rpow_nonneg h0 _) (Real.exp_pos _).le
  · unfold QSO_n_of_z
    positivity
  · unfold BGS_n_of_z
    exact mul_nonneg (Real.rpow_nonneg h0 _) (Real.exp_pos _).le

/-- Claim C8 witness at `z = 1`. -/
theorem n_of_z_nonneg_w :
    0 ≤ LRG_n_of_z 1 ∧ 0 ≤ ELG_n_of_z 1 ∧ 0 ≤ QSO_n_of_z 1 ∧ 0 ≤ BGS_n_of_z 1 :=
  n_of_z_nonneg 1 (by norm_num) (by norm_num)

/- ------------------------------------------------------------------
Equation and invariant lemmas for the rejection-sampling loop.
------------------------------------------------------------------- -/

theorem sampleRun_zero (nz : ℝ → ℝ) (zs ps : ℕ → ℝ) (n : ℤ) (acc : List ℝ) (k : ℕ) :
    sampleRun nz zs ps n 0 acc k = none := rfl

theorem sampleRun_succ (nz : ℝ → ℝ) (zs ps : ℕ → ℝ) (n : ℤ) (fuel : ℕ)
    (acc : List ℝ) (k : ℕ) :
    sampleRun nz zs ps n (fuel + 1) acc k =
      if (acc.length : ℤ) < n then
        sampleRun nz zs ps n fuel
          (acc ++ sampleBatch nz zs ps k ((n - acc.length) * 3).toNat)
          (k + ((n - acc.length) * 3).toNat)
      else some (pySliceTo acc n) := rfl

theorem pySliceTo_subset {α : Type} (l : List α) (n : ℤ) : pySliceTo l n ⊆ l := by
  unfold pySliceTo
  by_cases h : 0 ≤ n
  · rw [if_pos h]
    exact List.take_subset _ _
  · rw [if_neg h]
    exact List.take_subset _ _

theorem sampleBatch_mem (nz : ℝ → ℝ) (zs ps : ℕ → ℝ) (k batch : ℕ) (x : ℝ)
    (hx : x ∈ sampleBatch nz zs ps k batch) : ∃ i, x = zs i := by
  unfold sampleBatch at hx
  rw [List.mem_filterMap] at hx
  obtain ⟨j, _, hfj⟩ := hx
  by_cases hc : ps (k + j) < nz (zs (k + j))
  · rw [if_pos hc] at hfj
    exact ⟨k + j, (Option.some.inj hfj).symm⟩
  · rw [if_neg hc] at hfj
    simp at hfj

theorem sampleRun_length (nz : ℝ → ℝ) (zs ps : ℕ → ℝ) (n : ℤ) (hn : 0 ≤ n) :
    ∀ (fuel : ℕ) (acc : List ℝ) (k : ℕ) (l : List ℝ),
      sampleRun nz zs ps n fuel acc k = some l → (l.length : ℤ) = n := by
  intro fuel
  induction fuel with
  | zero =>
    intro acc k l h
    rw [sampleRun_zero] at h
    simp at h
  | succ f ih =>
    intro acc k l h
    rw [sampleRun_succ] at h
    by_cases hc : (acc.length : ℤ) < n
    · rw [if_pos hc] at h
      exact ih _ _ _ h
    · rw [if_neg hc] at h
      have h' : pySliceTo acc n = l := Option.some.inj h
      subst h'
      unfold pySliceTo
      rw [if_pos hn, List.length_take]
      omega

theorem sampleRun_mem (nz : ℝ → ℝ) (zs ps : ℕ → ℝ) (n : ℤ)
    (hzs : ∀ i, 0 ≤ zs i ∧ zs i ≤ 5) :
    ∀ (fuel : ℕ) (acc : List ℝ) (k : ℕ) (l : List ℝ),
      (∀ x ∈ acc, 0 ≤ x ∧ x ≤ 5) →
      sampleRun nz zs ps n fuel acc k = some l →
      ∀ x ∈ l, 0 ≤ x ∧ x ≤ 5 := by
  intro fuel
  induction fuel with
  | zero =>
    intro acc k l _ h
    rw [sampleRun_zero] at h
    simp at h
  | succ f ih =>
    intro acc k l hacc h
    rw [sampleRun_succ] at h
    by_cases hc : (acc.length : ℤ) < n
    · rw [if_pos hc] at h
      apply ih _ _ _ _ h
      intro x hx
      rw [List.mem_append] at hx
      rcases hx with hx | hx
      · exact hacc x hx
      · obtain ⟨i, rfl⟩ := sampleBatch_mem _ _ _ _ _ _ hx
        exact hzs i
    · rw [if_neg hc] at h
      have h' : pySliceTo acc n = l := Option.some.inj h
      subst h'
      intro x hx
      exact hacc x (pySliceTo_subset _ _ hx)

/-- Claim C6: when the rejection-sampling loop of `sample_redshifts`
terminates on a tracer whose `max_prob_estimate` is defined, it returns
exactly `n` values, each drawn from the proposal stream and hence inside
the fixed sampling domain `[0, 5]`. -/
theorem sample_redshifts_exact (m : ℝ) (nz : ℝ → ℝ) (zs ps : ℕ → ℝ)
    (fuel : ℕ) (n : ℤ) (hn : 0 ≤ n) (hzs : ∀ i, 0 ≤ zs i ∧ zs i ≤ 5) (l : List ℝ)
    (hok : Tracer.sample_redshifts (some m) nz zs ps fuel n = PyResult.ok l) :
    (l.length : ℤ) = n ∧ ∀ x ∈ l, 0 ≤ x ∧ x ≤ 5 := by
  unfold Tracer.sample_redshifts at hok
  cases hrun : sampleRun nz zs ps n fuel [] 0 with
  | none =>
    rw [hrun] at hok
    exact absurd hok (fun h => PyResult.noConfusion h)
  | some l' =>
    rw [hrun] at hok
    have hl : l' = l := by
      have := hok
      simp at this
      exact this
    subst hl
    exact ⟨sampleRun_length nz zs ps n hn fuel [] 0 l' hrun,
           sampleRun_mem nz zs ps n hzs fuel [] 0 l' (by simp) hrun⟩

/- ------------------------------------------------------------------
Concrete evaluations of the sampling loop, used by witnesses and
counterexamples: constant streams proposing `z = 1` with height `0`.
------------------------------------------------------------------- -/

theorem ELG_n_of_z_one_pos : (0:ℝ) < ELG_n_of_z 1 := by
  unfold ELG_n_of_z
  positivity

theorem BGS_n_of_z_one_pos : (0:ℝ) < BGS_n_of_z 1 := by
  unfold BGS_n_of_z
  positivity

theorem sampleBatch_const_accept (nz : ℝ → ℝ) (hpos : (0:ℝ) < nz 1) :
    sampleBatch nz (fun _ => 1) (fun _ => 0) 0 3 = [1, 1, 1] := by
  unfold sampleBatch
  simp [hpos, List.range_succ]

theorem sampleRun_const_eval (nz : ℝ → ℝ) (hpos : (0:ℝ) < nz 1) :
    sampleRun nz (fun _ => 1) (fun _ => 0) 1 2 [] 0 = some [1] := by
  have h3 : ((1 - ((List.length ([]:List ℝ)):ℤ)) * 3).toNat = 3 := by
    simp only [List.length_nil, Nat.cast_zero]
    decide
  rw [show (2:ℕ) = 1 + 1 from rfl, sampleRun_succ,
    if_pos (by norm_num : ((List.length ([]:List ℝ) : ℤ)) < 1), h3,
    List.nil_append, sampleBatch_const_accept nz hpos,
    show (1:ℕ) = 0 + 1 from rfl, sampleRun_succ,
    if_neg (by norm_num : ¬ ((List.length ([(1:ℝ), 1, 1]) : ℤ) < 1))]
  norm_num [pySliceTo]

theorem elg_sample_eval :
    Tracer.sample_redshifts ELG_max_prob_estimate ELG_n_of_z (fun _ => 1) (fun _ => 0) 2 1 =
      PyResult.ok [1] := by
  unfold Tracer.sample_redshifts ELG_max_prob_estimate
  rw [sampleRun_const_eval ELG_n_of_z ELG_n_of_z_one_pos]

theorem bgs_sample_eval :
    Tracer.sample_redshifts BGS_max_prob_estimate BGS_n_of_z (fun _ => 1) (fun _ => 0) 2 1 =
      PyResult.ok [1] := by
  unfold Tracer.sample_redshifts BGS_max_prob_estimate
  rw [sampleRun_const_eval BGS_n_of_z BGS_n_of_z_one_pos]

/-- Claim C6 witness: the ELG tracer with constant streams, fuel 2 and
`n = 1` terminates with exactly one sample, inside `[0, 5]`. -/
theorem sample_redshifts_exact_w :
    (([(1:ℝ)].length : ℤ) = 1 ∧ ∀ x ∈ [(1:ℝ)], 0 ≤ x ∧ x ≤ 5) :=
  sample_redshifts_exact 1.0 ELG_n_of_z (fun _ => 1) (fun _ => 0) 2 1 (by norm_num)
    (fun _ => ⟨by norm_num, by norm_num⟩) [1] elg_sample_eval

/-- Claim C10: on ELG and BGS, a count `n ≤ 0` makes the loop guard
`len(samples) < n` false immediately, so `sample_redshifts` returns the
empty array from slicing the empty accumulator — no error is raised. -/
theorem sample_redshifts_nonpos_empty (zs ps : ℕ → ℝ) (fuel : ℕ) (n : ℤ) (hn : n ≤ 0) :
    Tracer.sample_redshifts ELG_max_prob_estimate ELG_n_of_z zs ps (fuel + 1) n =
        PyResult.ok [] ∧
    Tracer.sample_redshifts BGS_max_prob_estimate BGS_n_of_z zs ps (fuel + 1) n =
        PyResult.ok [] := by
  have hrun : ∀ nz : ℝ → ℝ, sampleRun nz zs ps n (fuel + 1) [] 0 = some [] := by
    intro nz
    rw [sampleRun_succ, if_neg (by simp only [List.length_nil, Nat.cast_zero]; omega)]
    simp [pySliceTo]
  constructor
  · unfold Tracer.sample_redshifts ELG_max_prob_estimate
    rw [hrun ELG_n_of_z]
  · unfold Tracer.sample_redshifts BGS_max_prob_estimate
    rw [hrun BGS_n_of_z]

/-- Claim C10 witness at count `0` with fuel `1`. -/
theorem sample_redshifts_nonpos_empty_w :
    Tracer.sample_redshifts ELG_max_prob_estimate ELG_n_of_z (fun _ => 1) (fun _ => 0) (0 + 1) 0 =
        PyResult.ok [] ∧
    Tracer.sample_redshifts BGS_max_prob_estimate BGS_n_of_z (fun _ => 1) (fun _ => 0) (0 + 1) 0 =
        PyResult.ok [] :=
  sample_redshifts_nonpos_empty (fun _ => 1) (fun _ => 0) 0 0 le_rfl

/-- Claim C3 counterexample: `LRG().sample_redshifts(0)` raises
`AttributeError` even though `0` is a non-negative integer count —
`LRG.__init__` never defines `max_prob_estimate`, and line 35 reads it
before the count is ever consulted. -/
theorem lrg_sample_raises :
    Tracer.sample_redshifts LRG_max_prob_estimate LRG_n_of_z (fun _ => 1) (fun _ => 0) 1 0 =
      PyResult.raised "AttributeError" := rfl

/-- Claim C3 (amended): `sample_redshifts` raises `AttributeError` on LRG
and QSO for every count because their constructors never define
`max_prob_estimate`; on ELG and BGS it raises no exception for any
streams, fuel and count. -/
theorem sample_redshifts_error_behavior (zs ps : ℕ → ℝ) (fuel : ℕ) (n : ℤ) :
    Tracer.sample_redshifts LRG_max_prob_estimate LRG_n_of_z zs ps fuel n =
        PyResult.raised "AttributeError" ∧
    Tracer.sample_redshifts QSO_max_prob_estimate QSO_n_of_z zs ps fuel n =
        PyResult.raised "AttributeError" ∧
    (∀ e, Tracer.sample_redshifts ELG_max_prob_estimate ELG_n_of_z zs ps fuel n ≠
        PyResult.raised e) ∧
    (∀ e, Tracer.sample_redshifts BGS_max_prob_estimate BGS_n_of_z zs ps fuel n ≠
        PyResult.raised e) := by
  refine ⟨rfl, rfl, ?_, ?_⟩
  · intro e h
    unfold Tracer.sample_redshifts ELG_max_prob_estimate at h
    cases hrun : sampleRun ELG_n_of_z zs ps n fuel [] 0 with
    | none => rw [hrun] at h; exact PyResult.noConfusion h
    | some l => rw [hrun] at h; exact PyResult.noConfusion h
  · intro e h
    unfold Tracer.sample_redshifts BGS_max_prob_estimate at h
    cases hrun : sampleRun BGS_n_of_z zs ps n fuel [] 0 with
    | none => rw [hrun] at h; exact PyResult.noConfusion h
    | some l => rw [hrun] at h; exact PyResult.noConfusion h

/- ------------------------------------------------------------------
Inversion lemmas for the survey mixer.
------------------------------------------------------------------- -/

theorem PyResult.bind_ok {α β : Type} (x : PyResult α) (f : α → PyResult β) (b : β)
    (h : x.bind f = PyResult.ok b) : ∃ a, x = PyResult.ok a ∧ f a = PyResult.ok b := by
  cases x with
  | ok a => exact ⟨a, rfl, h⟩
  | raised e => exact PyResult.noConfusion h
  | diverged => exact PyResult.noConfusion h

theorem sample_redshifts_ok_length (m : ℝ) (nz : ℝ → ℝ) (zs ps : ℕ → ℝ)
    (fuel : ℕ) (n : ℤ) (hn : 0 ≤ n) (l : List ℝ)
    (hok : Tracer.sample_redshifts (some m) nz zs ps fuel n = PyResult.ok l) :
    (l.length : ℤ) = n := by
  unfold Tracer.sample_redshifts at hok
  cases hrun : sampleRun nz zs ps n fuel [] 0 with
  | none =>
    rw [hrun] at hok
    exact absurd hok (fun h => PyResult.noConfusion h)
  | some l' =>
    rw [hrun] at hok
    have hl : l' = l := by
      have h' := hok
      simp at h'
      exact h'
    subst hl
    exact sampleRun_length nz zs ps n hn fuel [] 0 l' hrun

theorem branch_ok_length (mpe : Option ℝ) (nz : ℝ → ℝ) (zs ps : ℕ → ℝ)
    (fuel : ℕ) (m : ℤ) (l : List ℝ)
    (h : (if m > 0 then Tracer.sample_redshifts mpe nz zs ps fuel m
          else PyResult.ok []) = PyResult.ok l) :
    (l.length : ℤ) = max m 0 := by
  by_cases hm : m > 0
  · rw [if_pos hm] at h
    cases mpe with
    | none => exact absurd h (fun h' => PyResult.noConfusion h')
    | some mv =>
      have := sample_redshifts_ok_length mv nz zs ps fuel m (by omega) l h
      omega
  · rw [if_neg hm] at h
    have hl : ([] : List ℝ) = l := by
      have h' := h
      simp at h'
      exact h'.symm
    subst hl
    simp
    omega

/-- Claim C2 (amended): for every positive `n` and unsorted edges each in
`[0, n]`, a combined sequence returned by `generate_redshifts` has length
at most `2 * n`; the claimed `≤ n` bound is false because skipping a
negative sub-count does not shrink the remaining positive sub-counts. -/
theorem generate_redshifts_length_le (edge_1 edge_2 edge_3 : ℤ)
    (lrgZ lrgP elgZ elgP qsoZ qsoP bgsZ bgsP : ℕ → ℝ) (fuel : ℕ) (n : ℤ)
    (hn : 0 < n) (he1 : 0 ≤ edge_1) (he1n : edge_1 ≤ n) (he2 : 0 ≤ edge_2)
    (he2n : edge_2 ≤ n) (he3 : 0 ≤ edge_3) (he3n : edge_3 ≤ n) (l : List ℝ)
    (hok : generate_redshifts edge_1 edge_2 edge_3 lrgZ lrgP elgZ elgP qsoZ qsoP
      bgsZ bgsP fuel n = PyResult.ok l) :
    (l.length : ℤ) ≤ 2 * n := by
  simp only [generate_redshifts] at hok
  obtain ⟨r1, hb1, hok⟩ := PyResult.bind_ok _ _ _ hok
  obtain ⟨r2, hb2, hok⟩ := PyResult.bind_ok _ _ _ hok
  obtain ⟨r3, hb3, hok⟩ := PyResult.bind_ok _ _ _ hok
  obtain ⟨r4, hb4, hok⟩ := PyResult.bind_ok _ _ _ hok
  have hl : r1 ++ (r2 ++ (r3 ++ r4)) = l := by
    have h' := hok
    simp at h'
    exact h'
  have hL1 := branch_ok_length _ _ _ _ _ _ _ hb1
  have hL2 := branch_ok_length _ _ _ _ _ _ _ hb2
  have hL3 := branch_ok_length _ _ _ _ _ _ _ hb3
  have hL4 := branch_ok_length _ _ _ _ _ _ _ hb4
  subst hl
  simp only [List.length_append] at *
  push_cast at *
  omega

/-- Evaluation helper: `n = 1` with edges `(0, 1, 0)` gives sub-counts
`(0, 1, -1, 1)`; the ELG and BGS samplers each return one sample. -/
theorem generate_redshifts_eval_two :
    generate_redshifts 0 1 0
      (fun _ => 1) (fun _ => 0) (fun _ => 1) (fun _ => 0)
      (fun _ => 1) (fun _ => 0) (fun _ => 1) (fun _ => 0) 2 1 = PyResult.ok [1, 1] := by
  simp only [generate_redshifts]
  norm_num
  rw [elg_sample_eval, bgs_sample_eval]
  rfl

/-- Claim C2 counterexample: at `n = 1` with edges `(0, 1, 0)` (each drawn
from `[0, n]`), the mixer returns the two-element sequence `[1, 1]`,
exceeding the requested total `n = 1`. -/
theorem generate_redshifts_exceeds_n :
    generate_redshifts 0 1 0
      (fun _ => 1) (fun _ => 0) (fun _ => 1) (fun _ => 0)
      (fun _ => 1) (fun _ => 0) (fun _ => 1) (fun _ => 0) 2 1 = PyResult.ok [1, 1] ∧
    ¬ (([(1:ℝ), 1].length : ℤ) ≤ 1) :=
  ⟨generate_redshifts_eval_two, by norm_num⟩

/-- Claim C2 witness: the `≤ 2n` bound applied at the concrete run with
`n = 1`, edges `(0, 1, 0)`, whose output `[1, 1]` has length `2 ≤ 2`. -/
theorem generate_redshifts_length_le_w : (([(1:ℝ), 1].length : ℤ)) ≤ 2 * 1 :=
  generate_redshifts_length_le 0 1 0
    (fun _ => 1) (fun _ => 0) (fun _ => 1) (fun _ => 0)
    (fun _ => 1) (fun _ => 0) (fun _ => 1) (fun _ => 0) 2 1
    (by norm_num) (by norm_num) (by norm_num) (by norm_num) (by norm_num)
    (by norm_num) (by norm_num) [1, 1] generate_redshifts_eval_two

/-- Claim C5: at a state whose (extrapolated) lookup gives comoving
distance `-1` Mpc, the luminosity distance at `z = 0` is `-1 ≤ 0`, yet
`distance_modulus` returns numpy's silent `nan` — no domain error is
raised, contrary to the spec's explicit-failure requirement. -/
theorem distance_modulus_silent_nan :
    Cosmology.luminosity_distance
        ⟨0.6737, 100 * 0.6737, 0.3147, 0.6853, 299792.458, fun _ => -1⟩ 0 ≤ 0 ∧
    Cosmology.distance_modulus
        ⟨0.6737, 100 * 0.6737, 0.3147, 0.6853, 299792.458, fun _ => -1⟩ 0 = NpFloat.nan ∧
    distance_modulus_spec
        ⟨0.6737, 100 * 0.6737, 0.3147, 0.6853, 299792.458, fun _ => -1⟩ 0 =
      Except.error "DomainError" := by
  have hlum : Cosmology.luminosity_distance
      ⟨0.6737, 100 * 0.6737, 0.3147, 0.6853, 299792.458, fun _ => -1⟩ 0 = -1 := by
    unfold Cosmology.luminosity_distance Cosmology.comoving_distance
    norm_num
  refine ⟨by rw [hlum]; norm_num, ?_, ?_⟩
  · unfold Cosmology.distance_modulus
    rw [hlum]
    unfold npLog10
    rw [if_neg (by norm_num), if_neg (by norm_num)]
  · unfold distance_modulus_spec
    rw [hlum, if_pos (by norm_num)]
